import Mathlib

/-
Shallow embedding of the Medical Booking backend (src/main.py, src/schemas.py).

The repository is a FastAPI service over a generic document store
(`create_document` / `get_documents` from database.py, which is not part of
src/).  The store is therefore modelled from the spec (section 6.2): a typed
per-collection association list of (identifier, document) pairs, where
`insert` appends one document and returns a fresh store-assigned identifier
string, and `query` filters by exact field equality (empty filter = all
documents).

Each HTTP handler of main.py is translated into a pure Lean function over an
explicit `Store` state; `HTTPException` raising is translated into an
`Except ApiError` result carrying the handler's status code.
-/

namespace MedicalBooking

/-- Hexadecimal digit test, mirroring the character class accepted by
`bytes.fromhex` for a bson ObjectId string. -/
def isHexChar (c : Char) : Bool :=
  c.isDigit || ('a' ≤ c && c ≤ 'f') || ('A' ≤ c && c ≤ 'F')

/-- Format validity of an identifier string, modelling `ensure_object_id`
(main.py:26-30): `ObjectId(id_str)` succeeds on a string exactly when it is
24 hexadecimal characters.  `ensure_object_id` raises HTTP 400 otherwise. -/
def isValidObjectId (s : String) : Bool :=
  s.length == 24 && s.data.all isHexChar

/-- Pydantic request model `HospitalCreate` (main.py:84-88); the same fields
are what `payload.model_dump()` stores as the hospital document. -/
structure HospitalCreate where
  name : String
  city : String
  address : String
  phone : Option String
deriving DecidableEq

/-- Pydantic request model `ClinicCreate` (main.py:108-111); also the stored
clinic document shape. -/
structure ClinicCreate where
  hospital_id : String
  name : String
  specialties : List String
deriving DecidableEq

/-- Pydantic request model `DoctorCreate` (main.py:135-140); also the stored
doctor document shape.  Note both list fields default to `[]` there. -/
structure DoctorCreate where
  clinic_id : String
  name : String
  specialty : String
  days_available : List String
  time_slots : List String
deriving DecidableEq

/-- Pydantic request model `AppointmentCreate` (main.py:163-168).  It has no
`status` field. -/
structure AppointmentCreate where
  patient_name : String
  patient_phone : String
  doctor_id : String
  date : String
  time_slot : String
deriving DecidableEq

/-- Stored appointment document: the `AppointmentCreate` fields plus the
`status` field added by `create_appointment` (main.py:183-186). -/
structure Appointment where
  patient_name : String
  patient_phone : String
  doctor_id : String
  date : String
  time_slot : String
  status : String
deriving DecidableEq

/-- Modelled from the spec: the document store collaborator of section 6.2
(database.py is not in src/).  Each named collection is a sequence of
documents, each carrying its store-assigned internal identifier; `nextOid`
feeds fresh identifiers. -/
structure Store where
  hospitals : List (String × HospitalCreate)
  clinics : List (String × ClinicCreate)
  doctors : List (String × DoctorCreate)
  appointments : List (String × Appointment)
  nextOid : Nat
deriving DecidableEq

/-- Modelled from the spec: store-assigned unique identifiers, opaque
non-empty strings at the API boundary (spec sections 3 and 6.2). -/
def oidString (n : Nat) : String :=
  "oid" ++ toString n

/-- Modelled from the spec: `insert("hospital", doc) -> identifier_string`. -/
def Store.insertHospital (s : Store) (d : HospitalCreate) : Store × String :=
  let oid := oidString s.nextOid
  ({ s with hospitals := s.hospitals ++ [(oid, d)], nextOid := s.nextOid + 1 }, oid)

/-- Modelled from the spec: `insert("clinic", doc) -> identifier_string`. -/
def Store.insertClinic (s : Store) (d : ClinicCreate) : Store × String :=
  let oid := oidString s.nextOid
  ({ s with clinics := s.clinics ++ [(oid, d)], nextOid := s.nextOid + 1 }, oid)

/-- Modelled from the spec: `insert("doctor", doc) -> identifier_string`. -/
def Store.insertDoctor (s : Store) (d : DoctorCreate) : Store × String :=
  let oid := oidString s.nextOid
  ({ s with doctors := s.doctors ++ [(oid, d)], nextOid := s.nextOid + 1 }, oid)

/-- Modelled from the spec: `insert("appointment", doc) -> identifier_string`. -/
def Store.insertAppointment (s : Store) (d : Appointment) : Store × String :=
  let oid := oidString s.nextOid
  ({ s with appointments := s.appointments ++ [(oid, d)], nextOid := s.nextOid + 1 }, oid)

/-- Errors raised by the handlers via `HTTPException`. -/
inductive ApiError where
  /-- main.py:30 `HTTPException(status_code=400, detail="Invalid ID format")` -/
  | invalidId
  /-- main.py:181 `HTTPException(status_code=409, detail="This slot is already booked")` -/
  | slotConflict
deriving DecidableEq

/-- HTTP status code carried by each `HTTPException` of main.py. -/
def ApiError.statusCode : ApiError → Nat
  | .invalidId => 400
  | .slotConflict => 409

/-- Python truthiness of an optional string query parameter: both `None` and
the empty string are falsy, so `if param:` adds the field to the filter dict
only for a non-empty string. -/
def truthy : Option String → Option String
  | none => none
  | some v => if v = "" then none else some v

/-- Exact-equality match of a document field against an optional filter
entry; an absent entry matches everything (spec section 6.2). -/
def optEq (q : Option String) (x : String) : Bool :=
  match q with
  | none => true
  | some v => x == v

/-- Response document of a list endpoint: the stored hospital fields with the
internal identifier popped and re-exposed as the public string field `id`
(main.py:79-80).  There is no internal identifier field in the output. -/
structure HospitalOut where
  id : String
  name : String
  city : String
  address : String
  phone : Option String
deriving DecidableEq

/-- Response document shaping for one stored hospital (main.py:79-80). -/
def hospitalOut (e : String × HospitalCreate) : HospitalOut :=
  ⟨e.1, e.2.name, e.2.city, e.2.address, e.2.phone⟩

/-- Response document of `GET /api/clinics`, public `id` in place of the
internal identifier. -/
structure ClinicOut where
  id : String
  hospital_id : String
  name : String
  specialties : List String
deriving DecidableEq

/-- Response document shaping for one stored clinic (main.py:103-104). -/
def clinicOut (e : String × ClinicCreate) : ClinicOut :=
  ⟨e.1, e.2.hospital_id, e.2.name, e.2.specialties⟩

/-- Response document of `GET /api/doctors`, public `id` in place of the
internal identifier. -/
structure DoctorOut where
  id : String
  clinic_id : String
  name : String
  specialty : String
  days_available : List String
  time_slots : List String
deriving DecidableEq

/-- Response document shaping for one stored doctor (main.py:130-131). -/
def doctorOut (e : String × DoctorCreate) : DoctorOut :=
  ⟨e.1, e.2.clinic_id, e.2.name, e.2.specialty, e.2.days_available, e.2.time_slots⟩

/-- Response document of `GET /api/appointments`, public `id` in place of the
internal identifier. -/
structure AppointmentOut where
  id : String
  patient_name : String
  patient_phone : String
  doctor_id : String
  date : String
  time_slot : String
  status : String
deriving DecidableEq

/-- Response document shaping for one stored appointment (main.py:158-159). -/
def appointmentOut (e : String × Appointment) : AppointmentOut :=
  ⟨e.1, e.2.patient_name, e.2.patient_phone, e.2.doctor_id, e.2.date, e.2.time_slot, e.2.status⟩

/-- Handler `list_hospitals` (main.py:76-81): unfiltered read of the
`hospital` collection, each document shaped with a public `id`. -/
def list_hospitals (s : Store) : List HospitalOut :=
  s.hospitals.map hospitalOut

/-- Handler `create_hospital` (main.py:91-94): insert the payload and return
the new identifier.  No validation beyond the typed fields, never fails. -/
def create_hospital (s : Store) (payload : HospitalCreate) : Store × String :=
  s.insertHospital payload

/-- Handler `list_clinics` (main.py:97-105): the filter dict contains
`hospital_id` only when the query parameter is truthy. -/
def list_clinics (s : Store) (hospital_id : Option String) : List ClinicOut :=
  let q := truthy hospital_id
  (s.clinics.filter (fun e => optEq q e.2.hospital_id)).map clinicOut

/-- Handler `create_clinic` (main.py:114-119): validate the hospital_id
format only (no existence check), then insert. -/
def create_clinic (s : Store) (payload : ClinicCreate) : Except ApiError (Store × String) :=
  if isValidObjectId payload.hospital_id then
    .ok (s.insertClinic payload)
  else
    .error .invalidId

/-- Handler `list_doctors` (main.py:122-132): filter entries for `clinic_id`
and `specialty` are added independently, each only when truthy. -/
def list_doctors (s : Store) (clinic_id specialty : Option String) : List DoctorOut :=
  let qc := truthy clinic_id
  let qs := truthy specialty
  (s.doctors.filter (fun e => optEq qc e.2.clinic_id && optEq qs e.2.specialty)).map doctorOut

/-- Handler `create_doctor` (main.py:143-147): validate the clinic_id format
only, then insert. -/
def create_doctor (s : Store) (payload : DoctorCreate) : Except ApiError (Store × String) :=
  if isValidObjectId payload.clinic_id then
    .ok (s.insertDoctor payload)
  else
    .error .invalidId

/-- Handler `list_appointments` (main.py:150-160): filter entries for
`doctor_id` and `date` are added independently, each only when truthy. -/
def list_appointments (s : Store) (doctor_id date : Option String) : List AppointmentOut :=
  let qd := truthy doctor_id
  let qt := truthy date
  (s.appointments.filter (fun e => optEq qd e.2.doctor_id && optEq qt e.2.date)).map appointmentOut

/-- Exact-triple duplicate filter used by `create_appointment`
(main.py:175-179): the stored appointment matches the payload's
(doctor_id, date, time_slot). -/
def matchesTriple (p : AppointmentCreate) (a : Appointment) : Bool :=
  a.doctor_id == p.doctor_id && a.date == p.date && a.time_slot == p.time_slot

/-- Response body of `POST /api/appointments` (main.py:187). -/
structure AppointmentResponse where
  id : String
  status : String
deriving DecidableEq

/-- Handler `create_appointment` (main.py:171-187): validate the doctor_id
format, query the appointment collection for the exact triple, raise 409 on
any match, otherwise insert the payload with `status` forced to "pending". -/
def create_appointment (s : Store) (payload : AppointmentCreate) :
    Except ApiError (Store × AppointmentResponse) :=
  if isValidObjectId payload.doctor_id then
    let existing := s.appointments.filter (fun e => matchesTriple payload e.2)
    if existing.isEmpty then
      let doc : Appointment :=
        ⟨payload.patient_name, payload.patient_phone, payload.doctor_id,
         payload.date, payload.time_slot, "pending"⟩
      let r := s.insertAppointment doc
      .ok (r.1, ⟨r.2, "pending"⟩)
    else
      .error .slotConflict
  else
    .error .invalidId

/-- Raw JSON body of `POST /api/appointments`, possibly carrying an extra
`status` member.  `AppointmentCreate` declares no `status` field, so pydantic
parsing discards any caller-supplied value. -/
structure AppointmentRequestBody where
  patient_name : String
  patient_phone : String
  doctor_id : String
  date : String
  time_slot : String
  status : Option String
deriving DecidableEq

/-- Pydantic validation of the appointment request body against
`AppointmentCreate` (main.py:163-168): only the declared fields survive. -/
def parseAppointmentCreate (b : AppointmentRequestBody) : AppointmentCreate :=
  ⟨b.patient_name, b.patient_phone, b.doctor_id, b.date, b.time_slot⟩

/-- Raw JSON body of `POST /api/doctors`: the two list fields may be absent. -/
structure DoctorRequestBody where
  clinic_id : String
  name : String
  specialty : String
  days_available : Option (List String)
  time_slots : Option (List String)
deriving DecidableEq

/-- Pydantic validation of the doctor request body against `DoctorCreate`
(main.py:135-140): both list fields default to the empty list when absent. -/
def parseDoctorCreate (b : DoctorRequestBody) : DoctorCreate :=
  ⟨b.clinic_id, b.name, b.specialty, b.days_available.getD [], b.time_slots.getD []⟩

/-- Default value of `Doctor.time_slots` in the collection schema
(schemas.py:61-64): the fixed half-hour grid 09:00 to 14:30.  The create
path of main.py uses `DoctorCreate`, not this schema. -/
def schemasDoctorTimeSlotsDefault : List String :=
  ["09:00", "09:30", "10:00", "10:30", "11:00", "11:30",
   "12:00", "12:30", "13:00", "13:30", "14:00", "14:30"]

/-- One request against the system surface of spec section 6.1: the four
list endpoints and the four create endpoints. -/
inductive Op where
  | listHospitalsOp
  | listClinicsOp (hospital_id : Option String)
  | listDoctorsOp (clinic_id specialty : Option String)
  | listAppointmentsOp (doctor_id date : Option String)
  | createHospitalOp (p : HospitalCreate)
  | createClinicOp (p : ClinicCreate)
  | createDoctorOp (p : DoctorCreate)
  | createAppointmentOp (p : AppointmentCreate)
deriving DecidableEq

/-- Store state after a fallible handler: a raised `HTTPException` leaves the
store untouched. -/
def afterExcept {α : Type} (s : Store) : Except ApiError (Store × α) → Store
  | .ok r => r.1
  | .error _ => s

/-- Store state after executing one operation; list handlers never write. -/
def opStore (s : Store) : Op → Store
  | .listHospitalsOp => s
  | .listClinicsOp _ => s
  | .listDoctorsOp _ _ => s
  | .listAppointmentsOp _ _ => s
  | .createHospitalOp p => (create_hospital s p).1
  | .createClinicOp p => afterExcept s (create_clinic s p)
  | .createDoctorOp p => afterExcept s (create_doctor s p)
  | .createAppointmentOp p => afterExcept s (create_appointment s p)

/-- Success test of a fallible handler result. -/
def isOkE {α : Type} : Except ApiError (Store × α) → Bool
  | .ok _ => true
  | .error _ => false

/-- Whether the operation performs an insert: exactly the creates that do
not raise. -/
def opInserts (s : Store) : Op → Bool
  | .listHospitalsOp => false
  | .listClinicsOp _ => false
  | .listDoctorsOp _ _ => false
  | .listAppointmentsOp _ _ => false
  | .createHospitalOp _ => true
  | .createClinicOp p => isOkE (create_clinic s p)
  | .createDoctorOp p => isOkE (create_doctor s p)
  | .createAppointmentOp p => isOkE (create_appointment s p)

/-- Total number of documents across the four collections. -/
def totalDocs (s : Store) : Nat :=
  s.hospitals.length + s.clinics.length + s.doctors.length + s.appointments.length

/-- The booking triple of a stored appointment. -/
def tripleOf (a : Appointment) : String × String × String :=
  (a.doctor_id, a.date, a.time_slot)

/-- Slot-exclusivity invariant of spec section 3: no two appointment
documents share the (doctor_id, date, time_slot) triple. -/
def NoTwoShareSlot (l : List (String × Appointment)) : Prop :=
  (l.map (fun e => tripleOf e.2)).Nodup

/-- A collection after an operation: unchanged, or exactly one document
appended at the end (never an update or a delete of an earlier document). -/
def ExtendsByAtMostOne {α : Type} (old new : List α) : Prop :=
  new = old ∨ ∃ x, new = old ++ [x]

/-- Empty store, used by concrete witnesses. -/
def emptyStore : Store :=
  ⟨[], [], [], [], 0⟩

/-- A concrete well-formed 24-hex-character identifier. -/
def sampleOid : String :=
  "0123456789abcdef01234567"

/-- Concrete appointment payload used by witnesses. -/
def wPayload : AppointmentCreate :=
  ⟨"Ali Hasan", "0500000000", sampleOid, "2024-01-10", "09:00"⟩

/-- Concrete store already holding the appointment of `wPayload`. -/
def wStore : Store :=
  ⟨[], [], [],
   [("oid0", ⟨"Ali Hasan", "0500000000", sampleOid, "2024-01-10", "09:00", "pending"⟩)],
   1⟩

lemma filter_isEmpty_of_free (p : AppointmentCreate) (l : List (String × Appointment))
    (h : ∀ e ∈ l, matchesTriple p e.2 = false) :
    (l.filter fun e => matchesTriple p e.2).isEmpty = true := by
  have hnil : l.filter (fun e => matchesTriple p e.2) = [] :=
    List.filter_eq_nil_iff.mpr (fun a ha => by simp [h a ha])
  simp [hnil]

lemma filter_isEmpty_of_match (p : AppointmentCreate) (l : List (String × Appointment))
    (h : ∃ e ∈ l, matchesTriple p e.2 = true) :
    (l.filter fun e => matchesTriple p e.2).isEmpty = false := by
  obtain ⟨e, he, hm⟩ := h
  have hmem : e ∈ l.filter (fun e => matchesTriple p e.2) :=
    List.mem_filter.mpr ⟨he, hm⟩
  have hne : l.filter (fun e => matchesTriple p e.2) ≠ [] :=
    List.ne_nil_of_mem hmem
  rcases hl : l.filter (fun e => matchesTriple p e.2) with _ | ⟨a, t⟩
  · exact absurd hl hne
  · rw [hl]
    rfl

/-- C1: a create request whose (doctor_id, date, time_slot) triple already
matches a stored appointment fails with the 409 slot-conflict error, the
store is left untouched, and in particular the appointment count is
unchanged. -/
theorem duplicate_slot_create_conflicts (s : Store) (p : AppointmentCreate)
    (hid : isValidObjectId p.doctor_id = true)
    (hdup : ∃ e ∈ s.appointments, matchesTriple p e.2 = true) :
    create_appointment s p = .error .slotConflict ∧
    ApiError.statusCode .slotConflict = 409 ∧
    opStore s (.createAppointmentOp p) = s ∧
    (opStore s (.createAppointmentOp p)).appointments.length = s.appointments.length := by
  have hie := filter_isEmpty_of_match p s.appointments hdup
  have hres : create_appointment s p = .error .slotConflict := by
    simp [create_appointment, hid, hie]
  refine ⟨hres, rfl, ?_, ?_⟩
  · simp [opStore, hres, afterExcept]
  · simp [opStore, hres, afterExcept]

/-- Witness for C1 at a concrete store and payload. -/
theorem duplicate_slot_create_conflicts_witness :
    create_appointment wStore wPayload = .error .slotConflict ∧
    ApiError.statusCode .slotConflict = 409 ∧
    opStore wStore (.createAppointmentOp wPayload) = wStore ∧
    (opStore wStore (.createAppointmentOp wPayload)).appointments.length =
      wStore.appointments.length :=
  duplicate_slot_create_conflicts wStore wPayload (by decide) (by decide)

/-- Concrete raw appointment body supplying a forbidden status value. -/
def wBody : AppointmentRequestBody :=
  ⟨"Sara Omar", "0511111111", sampleOid, "2024-02-02", "10:30", some "confirmed"⟩

/-- C3: a create request with a well-formed doctor_id and an unused triple
succeeds, the stored document's status is "pending" and the response status
is "pending", whatever status value the raw request body carried. -/
theorem fresh_slot_create_pending (s : Store) (b : AppointmentRequestBody)
    (hid : isValidObjectId b.doctor_id = true)
    (hfree : ∀ e ∈ s.appointments, matchesTriple (parseAppointmentCreate b) e.2 = false) :
    ∃ s2 aid,
      create_appointment s (parseAppointmentCreate b) = .ok (s2, ⟨aid, "pending"⟩) ∧
      s2.appointments = s.appointments ++
        [(aid, ⟨b.patient_name, b.patient_phone, b.doctor_id, b.date, b.time_slot, "pending"⟩)] := by
  have hie := filter_isEmpty_of_free (parseAppointmentCreate b) s.appointments hfree
  refine ⟨{ s with
      appointments := s.appointments ++
        [(oidString s.nextOid,
          ⟨b.patient_name, b.patient_phone, b.doctor_id, b.date, b.time_slot, "pending"⟩)],
      nextOid := s.nextOid + 1 }, oidString s.nextOid, ?_, ?_⟩
  · simp [create_appointment, parseAppointmentCreate, hid, hie, Store.insertAppointment]
    exact fun x y hxy => hfree (x, y) hxy
  · simp

/-- Witness for C3 at a concrete store and raw body with status "confirmed". -/
theorem fresh_slot_create_pending_witness :
    ∃ s2 aid,
      create_appointment wStore (parseAppointmentCreate wBody) = .ok (s2, ⟨aid, "pending"⟩) ∧
      s2.appointments = wStore.appointments ++
        [(aid, ⟨wBody.patient_name, wBody.patient_phone, wBody.doctor_id,
                wBody.date, wBody.time_slot, "pending"⟩)] :=
  fresh_slot_create_pending wStore wBody (by decide) (by decide)

/-- Concrete payloads with a malformed reference identifier. -/
def wBadClinic : ClinicCreate := ⟨"not-an-id", "Clinic A", []⟩

/-- Concrete doctor payload with a malformed clinic reference. -/
def wBadDoctor : DoctorCreate := ⟨"xyz", "Dr. B", "cardiology", [], []⟩

/-- Concrete appointment payload with a malformed doctor reference. -/
def wBadAppointment : AppointmentCreate := ⟨"P", "05", "short", "2024-01-10", "09:00"⟩

/-- C6: a clinic-, doctor- or appointment-create whose reference field is not
a well-formed identifier fails with the 400 invalid-id error and leaves the
store untouched; for appointments the failure is the invalid-id error (never
the slot conflict) for every store state, so the conflict query is never
consulted. -/
theorem malformed_reference_rejected (s : Store)
    (pc : ClinicCreate) (pd : DoctorCreate) (pa : AppointmentCreate)
    (hc : isValidObjectId pc.hospital_id = false)
    (hd : isValidObjectId pd.clinic_id = false)
    (ha : isValidObjectId pa.doctor_id = false) :
    (create_clinic s pc = .error .invalidId ∧ opStore s (.createClinicOp pc) = s) ∧
    (create_doctor s pd = .error .invalidId ∧ opStore s (.createDoctorOp pd) = s) ∧
    (create_appointment s pa = .error .invalidId ∧ opStore s (.createAppointmentOp pa) = s) ∧
    ApiError.statusCode .invalidId = 400 := by
  have h1 : create_clinic s pc = .error .invalidId := by simp [create_clinic, hc]
  have h2 : create_doctor s pd = .error .invalidId := by simp [create_doctor, hd]
  have h3 : create_appointment s pa = .error .invalidId := by simp [create_appointment, ha]
  exact ⟨⟨h1, by simp [opStore, h1, afterExcept]⟩,
         ⟨h2, by simp [opStore, h2, afterExcept]⟩,
         ⟨h3, by simp [opStore, h3, afterExcept]⟩, rfl⟩

/-- Witness for C6 at concrete malformed payloads over a store that already
contains an appointment with the very same triple as the rejected one. -/
theorem malformed_reference_rejected_witness :
    (create_clinic wStore wBadClinic = .error .invalidId ∧
      opStore wStore (.createClinicOp wBadClinic) = wStore) ∧
    (create_doctor wStore wBadDoctor = .error .invalidId ∧
      opStore wStore (.createDoctorOp wBadDoctor) = wStore) ∧
    (create_appointment wStore wBadAppointment = .error .invalidId ∧
      opStore wStore (.createAppointmentOp wBadAppointment) = wStore) ∧
    ApiError.statusCode .invalidId = 400 :=
  malformed_reference_rejected wStore wBadClinic wBadDoctor wBadAppointment
    (by decide) (by decide) (by decide)

/-- C10: appointment creation never reads the doctor collection: with a
well-formed doctor_id and an unused triple it succeeds for every content of
the doctor collection, in particular when no doctor with that identifier
exists, and for arbitrary date and time_slot strings. -/
theorem create_appointment_ignores_doctor_collection (s : Store) (p : AppointmentCreate)
    (hid : isValidObjectId p.doctor_id = true)
    (hfree : ∀ e ∈ s.appointments, matchesTriple p e.2 = false) :
    ∀ d : List (String × DoctorCreate), ∃ s2 aid,
      create_appointment { s with doctors := d } p = .ok (s2, ⟨aid, "pending"⟩) := by
  intro d
  have hie := filter_isEmpty_of_free p s.appointments hfree
  refine ⟨{ s with
      doctors := d,
      appointments := s.appointments ++
        [(oidString s.nextOid,
          ⟨p.patient_name, p.patient_phone, p.doctor_id, p.date, p.time_slot, "pending"⟩)],
      nextOid := s.nextOid + 1 }, oidString s.nextOid, ?_⟩
  simp [create_appointment, hid, hie, Store.insertAppointment]

/-- Witness for C10: the create succeeds over an empty doctor collection for
a date and time slot outside any doctor's schedule. -/
theorem create_appointment_ignores_doctor_collection_witness :
    ∃ s2 aid,
      create_appointment { emptyStore with doctors := [] }
        ⟨"P", "05", sampleOid, "not-a-date", "99:99"⟩ = .ok (s2, ⟨aid, "pending"⟩) :=
  create_appointment_ignores_doctor_collection emptyStore
    ⟨"P", "05", sampleOid, "not-a-date", "99:99"⟩ (by decide) (by decide) []

lemma truthy_eq_self (q : Option String) (h : q ≠ some "") : truthy q = q := by
  cases q with
  | none => rfl
  | some v =>
    have hv : v ≠ "" := fun hv => h (by rw [hv])
    simp [truthy, hv]

/-- C5: with non-empty filter values, each list endpoint returns exactly the
documents whose corresponding field equals the filter value (both filters
must hold for the two-filter endpoints), and with no filters it returns the
whole collection, unpaginated and unlimited. -/
theorem list_filters_exact (s : Store) (hid cid sp did dt : Option String)
    (h1 : hid ≠ some "") (h2 : cid ≠ some "") (h3 : sp ≠ some "")
    (h4 : did ≠ some "") (h5 : dt ≠ some "") :
    list_hospitals s = s.hospitals.map hospitalOut ∧
    list_clinics s hid =
      (s.clinics.filter fun e => optEq hid e.2.hospital_id).map clinicOut ∧
    list_doctors s cid sp =
      (s.doctors.filter fun e => optEq cid e.2.clinic_id && optEq sp e.2.specialty).map doctorOut ∧
    list_appointments s did dt =
      (s.appointments.filter fun e => optEq did e.2.doctor_id && optEq dt e.2.date).map appointmentOut ∧
    list_clinics s none = s.clinics.map clinicOut ∧
    list_doctors s none none = s.doctors.map doctorOut ∧
    list_appointments s none none = s.appointments.map appointmentOut := by
  refine ⟨rfl, ?_, ?_, ?_, ?_, ?_, ?_⟩
  · rw [list_clinics, truthy_eq_self hid h1]
  · rw [list_doctors, truthy_eq_self cid h2, truthy_eq_self sp h3]
  · rw [list_appointments, truthy_eq_self did h4, truthy_eq_self dt h5]
  · simp [list_clinics, truthy, optEq]
  · simp [list_doctors, truthy, optEq]
  · simp [list_appointments, truthy, optEq]

/-- Concrete store with two documents per collection for the list witnesses. -/
def wListStore : Store :=
  ⟨[("o1", ⟨"General", "Riyadh", "Main St", none⟩)],
   [("o2", ⟨"h1", "Clinic A", []⟩), ("o3", ⟨"h2", "Clinic B", []⟩)],
   [("o4", ⟨"c1", "Dr. A", "cardiology", [], []⟩), ("o5", ⟨"c2", "Dr. B", "dermatology", [], []⟩)],
   [("o6", ⟨"P1", "05", "d1", "2024-01-10", "09:00", "pending"⟩),
    ("o7", ⟨"P2", "05", "d2", "2024-01-11", "10:00", "pending"⟩)],
   8⟩

/-- Witness for C5 at a concrete store and concrete non-empty filters. -/
theorem list_filters_exact_witness :
    list_hospitals wListStore = wListStore.hospitals.map hospitalOut ∧
    list_clinics wListStore (some "h1") =
      (wListStore.clinics.filter fun e => optEq (some "h1") e.2.hospital_id).map clinicOut ∧
    list_doctors wListStore (some "c1") (some "cardiology") =
      (wListStore.doctors.filter fun e =>
        optEq (some "c1") e.2.clinic_id && optEq (some "cardiology") e.2.specialty).map doctorOut ∧
    list_appointments wListStore (some "d1") (some "2024-01-10") =
      (wListStore.appointments.filter fun e =>
        optEq (some "d1") e.2.doctor_id && optEq (some "2024-01-10") e.2.date).map appointmentOut ∧
    list_clinics wListStore none = wListStore.clinics.map clinicOut ∧
    list_doctors wListStore none none = wListStore.doctors.map doctorOut ∧
    list_appointments wListStore none none = wListStore.appointments.map appointmentOut :=
  list_filters_exact wListStore (some "h1") (some "c1") (some "cardiology")
    (some "d1") (some "2024-01-10")
    (by decide) (by decide) (by decide) (by decide) (by decide)

/-- C9: an empty-string filter value is treated exactly like an absent
filter: every document of the collection is returned, whatever the value of
its filtered field. -/
theorem empty_string_filter_ignored (s : Store) :
    list_clinics s (some "") = list_clinics s none ∧
    list_clinics s (some "") = s.clinics.map clinicOut ∧
    list_doctors s (some "") (some "") = list_doctors s none none ∧
    list_doctors s (some "") (some "") = s.doctors.map doctorOut ∧
    list_appointments s (some "") (some "") = list_appointments s none none ∧
    list_appointments s (some "") (some "") = s.appointments.map appointmentOut := by
  refine ⟨rfl, ?_, rfl, ?_, rfl, ?_⟩
  · simp [list_clinics, truthy, optEq]
  · simp [list_doctors, truthy, optEq]
  · simp [list_appointments, truthy, optEq]

lemma oidString_ne_empty (n : Nat) : oidString n ≠ "" := by
  intro h
  have hc := congrArg String.length h
  have h3 : ("oid" : String).length = 3 := rfl
  simp [oidString, String.length_append, h3] at hc

/-- C7: creating a Hospital/Clinic/Doctor and then listing its collection
returns a document whose payload fields equal the input and whose public
`id` is a non-empty string; the output record carries no internal identifier
field. -/
theorem create_then_list_roundtrip (s : Store)
    (ph : HospitalCreate) (pc : ClinicCreate) (pd : DoctorCreate)
    (hc : isValidObjectId pc.hospital_id = true)
    (hd : isValidObjectId pd.clinic_id = true) :
    ((create_hospital s ph).2 ≠ "" ∧
      hospitalOut ((create_hospital s ph).2, ph) ∈ list_hospitals (create_hospital s ph).1) ∧
    (∃ s2 cid, create_clinic s pc = .ok (s2, cid) ∧ cid ≠ "" ∧
      clinicOut (cid, pc) ∈ list_clinics s2 none) ∧
    (∃ s2 did, create_doctor s pd = .ok (s2, did) ∧ did ≠ "" ∧
      doctorOut (did, pd) ∈ list_doctors s2 none none) := by
  refine ⟨⟨oidString_ne_empty s.nextOid, ?_⟩, ?_, ?_⟩
  · simp [create_hospital, Store.insertHospital, list_hospitals]
  · refine ⟨{ s with
        clinics := s.clinics ++ [(oidString s.nextOid, pc)],
        nextOid := s.nextOid + 1 }, oidString s.nextOid, ?_,
      oidString_ne_empty s.nextOid, ?_⟩
    · simp [create_clinic, hc, Store.insertClinic]
    · simp [list_clinics, truthy, optEq]
  · refine ⟨{ s with
        doctors := s.doctors ++ [(oidString s.nextOid, pd)],
        nextOid := s.nextOid + 1 }, oidString s.nextOid, ?_,
      oidString_ne_empty s.nextOid, ?_⟩
    · simp [create_doctor, hd, Store.insertDoctor]
    · simp [list_doctors, truthy, optEq]

/-- Concrete hospital payload for witnesses. -/
def wHospital : HospitalCreate := ⟨"General", "Riyadh", "Main St", none⟩

/-- Concrete clinic payload with a well-formed hospital reference. -/
def wClinic : ClinicCreate := ⟨sampleOid, "Clinic A", ["cardiology"]⟩

/-- Concrete doctor payload with a well-formed clinic reference. -/
def wDoctor : DoctorCreate := ⟨sampleOid, "Dr. A", "cardiology", ["Mon"], ["09:00"]⟩

/-- Witness for C7 at concrete payloads over the empty store. -/
theorem create_then_list_roundtrip_witness :
    ((create_hospital emptyStore wHospital).2 ≠ "" ∧
      hospitalOut ((create_hospital emptyStore wHospital).2, wHospital) ∈
        list_hospitals (create_hospital emptyStore wHospital).1) ∧
    (∃ s2 cid, create_clinic emptyStore wClinic = .ok (s2, cid) ∧ cid ≠ "" ∧
      clinicOut (cid, wClinic) ∈ list_clinics s2 none) ∧
    (∃ s2 did, create_doctor emptyStore wDoctor = .ok (s2, did) ∧ did ≠ "" ∧
      doctorOut (did, wDoctor) ∈ list_doctors s2 none none) :=
  create_then_list_roundtrip emptyStore wHospital wClinic wDoctor (by decide) (by decide)

/-- Concrete doctor request body that leaves both list fields unspecified. -/
def wDoctorBody : DoctorRequestBody := ⟨sampleOid, "Dr. C", "dermatology", none, none⟩

/-- C4 counterexample: a doctor created through `POST /api/doctors` without
a time_slots member is stored with `time_slots = []`, not the half-hour grid
of the schemas.py `Doctor` model, because the handler's `DoctorCreate` model
defaults the field to the empty list. -/
theorem doctor_default_slots_counterexample :
    (parseDoctorCreate wDoctorBody).time_slots = [] ∧
    (opStore emptyStore (.createDoctorOp (parseDoctorCreate wDoctorBody))).doctors.map
      (fun e => e.2.time_slots) = [[]] ∧
    ¬ ((opStore emptyStore (.createDoctorOp (parseDoctorCreate wDoctorBody))).doctors.map
      (fun e => e.2.time_slots) = [schemasDoctorTimeSlotsDefault]) := by
  decide

/-- C4 as amended: a doctor-create request that does not specify time_slots
(and has a well-formed clinic reference) succeeds and stores the doctor
document with `time_slots` equal to the empty list. -/
theorem doctor_unspecified_slots_stored_empty (s : Store) (b : DoctorRequestBody)
    (hc : isValidObjectId b.clinic_id = true)
    (hts : b.time_slots = none) :
    ∃ s2 did, create_doctor s (parseDoctorCreate b) = .ok (s2, did) ∧
      s2.doctors = s.doctors ++ [(did, parseDoctorCreate b)] ∧
      (parseDoctorCreate b).time_slots = [] := by
  refine ⟨{ s with
      doctors := s.doctors ++ [(oidString s.nextOid, parseDoctorCreate b)],
      nextOid := s.nextOid + 1 }, oidString s.nextOid, ?_, ?_, ?_⟩
  · simp [create_doctor, parseDoctorCreate, hc, Store.insertDoctor]
  · simp
  · simp [parseDoctorCreate, hts]

/-- Witness for the amended C4 at a concrete body over the empty store. -/
theorem doctor_unspecified_slots_stored_empty_witness :
    ∃ s2 did, create_doctor emptyStore (parseDoctorCreate wDoctorBody) = .ok (s2, did) ∧
      s2.doctors = emptyStore.doctors ++ [(did, parseDoctorCreate wDoctorBody)] ∧
      (parseDoctorCreate wDoctorBody).time_slots = [] :=
  doctor_unspecified_slots_stored_empty emptyStore wDoctorBody (by decide) (by decide)

lemma triple_ne_of_not_match (p : AppointmentCreate) (a : Appointment)
    (h : matchesTriple p a = false) :
    tripleOf a ≠ (p.doctor_id, p.date, p.time_slot) := by
  intro hc
  rw [tripleOf, Prod.mk.injEq, Prod.mk.injEq] at hc
  obtain ⟨h1, h2, h3⟩ := hc
  simp [matchesTriple, h1, h2, h3] at h

lemma noTwoShareSlot_append (l : List (String × Appointment)) (x : String × Appointment)
    (h : NoTwoShareSlot l) (hx : ∀ e ∈ l, tripleOf e.2 ≠ tripleOf x.2) :
    NoTwoShareSlot (l ++ [x]) := by
  rw [NoTwoShareSlot, List.map_append, List.nodup_append] at *
  refine ⟨h, List.nodup_singleton _, ?_⟩
  intro a ha hb
  rw [List.map_singleton, List.mem_singleton] at hb
  obtain ⟨e, he, hfe⟩ := List.mem_map.mp ha
  exact hx e he (hfe.trans hb)

/-- C2: the slot-exclusivity invariant is preserved by every operation of
the system surface: if no two stored appointments share the
(doctor_id, date, time_slot) triple, the same holds after any single list
or create request, in particular after a sequential `create_appointment`. -/
theorem slot_invariant_preserved (s : Store) (op : Op)
    (h : NoTwoShareSlot s.appointments) :
    NoTwoShareSlot (opStore s op).appointments := by
  cases op with
  | listHospitalsOp => exact h
  | listClinicsOp q => exact h
  | listDoctorsOp q r => exact h
  | listAppointmentsOp q r => exact h
  | createHospitalOp p => exact h
  | createClinicOp p =>
    by_cases hv : isValidObjectId p.hospital_id = true
    · simpa [opStore, create_clinic, hv, afterExcept, Store.insertClinic] using h
    · simpa [opStore, create_clinic, hv, afterExcept] using h
  | createDoctorOp p =>
    by_cases hv : isValidObjectId p.clinic_id = true
    · simpa [opStore, create_doctor, hv, afterExcept, Store.insertDoctor] using h
    · simpa [opStore, create_doctor, hv, afterExcept] using h
  | createAppointmentOp p =>
    by_cases hv : isValidObjectId p.doctor_id = true
    · by_cases hie : (s.appointments.filter fun e => matchesTriple p e.2).isEmpty = true
      · have hfree : ∀ e ∈ s.appointments, matchesTriple p e.2 = false := by
          have hnil : s.appointments.filter (fun e => matchesTriple p e.2) = [] :=
            List.isEmpty_iff.mp hie
          intro e he
          have := List.filter_eq_nil_iff.mp hnil e he
          simpa using this
        have hs : (opStore s (.createAppointmentOp p)).appointments =
            s.appointments ++
              [(oidString s.nextOid,
                ⟨p.patient_name, p.patient_phone, p.doctor_id, p.date, p.time_slot, "pending"⟩)] := by
          simp [opStore, create_appointment, hv, hie, afterExcept, Store.insertAppointment]
        rw [hs]
        refine noTwoShareSlot_append _ _ h ?_
        intro e he
        exact triple_ne_of_not_match p e.2 (hfree e he)
      · have hie' : (s.appointments.filter fun e => matchesTriple p e.2).isEmpty = false :=
          Bool.eq_false_iff.mpr hie
        simpa [opStore, create_appointment, hv, hie', afterExcept] using h
    · simpa [opStore, create_appointment, hv, afterExcept] using h

/-- Witness for C2: a duplicate-free concrete store stays duplicate-free
after a concrete appointment create. -/
theorem slot_invariant_preserved_witness :
    NoTwoShareSlot
      (opStore wStore (.createAppointmentOp (parseAppointmentCreate wBody))).appointments :=
  slot_invariant_preserved wStore (.createAppointmentOp (parseAppointmentCreate wBody))
    (by unfold NoTwoShareSlot; decide)

/-- C8: no operation updates or deletes a stored document: after any single
operation every collection is either unchanged or extended by exactly one
appended document, a successful create grows the total document count by
exactly one (one document, one collection), and an operation that performs
no insert leaves the store identical. -/
theorem store_is_insert_only (s : Store) (op : Op) :
    ExtendsByAtMostOne s.hospitals (opStore s op).hospitals ∧
    ExtendsByAtMostOne s.clinics (opStore s op).clinics ∧
    ExtendsByAtMostOne s.doctors (opStore s op).doctors ∧
    ExtendsByAtMostOne s.appointments (opStore s op).appointments ∧
    (opInserts s op = true → totalDocs (opStore s op) = totalDocs s + 1) ∧
    (opInserts s op = false → opStore s op = s) := by
  cases op with
  | listHospitalsOp =>
    exact ⟨Or.inl rfl, Or.inl rfl, Or.inl rfl, Or.inl rfl, by simp [opInserts], fun _ => rfl⟩
  | listClinicsOp q =>
    exact ⟨Or.inl rfl, Or.inl rfl, Or.inl rfl, Or.inl rfl, by simp [opInserts], fun _ => rfl⟩
  | listDoctorsOp q r =>
    exact ⟨Or.inl rfl, Or.inl rfl, Or.inl rfl, Or.inl rfl, by simp [opInserts], fun _ => rfl⟩
  | listAppointmentsOp q r =>
    exact ⟨Or.inl rfl, Or.inl rfl, Or.inl rfl, Or.inl rfl, by simp [opInserts], fun _ => rfl⟩
  | createHospitalOp p =>
    refine ⟨Or.inr ⟨(oidString s.nextOid, p), rfl⟩, Or.inl rfl, Or.inl rfl, Or.inl rfl, ?_, ?_⟩
    · intro
      simp [totalDocs, opStore, create_hospital, Store.insertHospital]
      omega
    · intro hf
      simp [opInserts] at hf
  | createClinicOp p =>
    by_cases hv : isValidObjectId p.hospital_id = true
    · have hs : opStore s (.createClinicOp p) =
          { s with clinics := s.clinics ++ [(oidString s.nextOid, p)],
                   nextOid := s.nextOid + 1 } := by
        simp [opStore, create_clinic, hv, afterExcept, Store.insertClinic]
      rw [hs]
      refine ⟨Or.inl rfl, Or.inr ⟨(oidString s.nextOid, p), rfl⟩, Or.inl rfl, Or.inl rfl, ?_, ?_⟩
      · intro
        simp [totalDocs]
        omega
      · intro hf
        simp [opInserts, create_clinic, hv, isOkE] at hf
    · have hs : opStore s (.createClinicOp p) = s := by
        simp [opStore, create_clinic, hv, afterExcept]
      rw [hs]
      refine ⟨Or.inl rfl, Or.inl rfl, Or.inl rfl, Or.inl rfl, ?_, fun _ => rfl⟩
      intro ht
      simp [opInserts, create_clinic, hv, isOkE] at ht
  | createDoctorOp p =>
    by_cases hv : isValidObjectId p.clinic_id = true
    · have hs : opStore s (.createDoctorOp p) =
          { s with doctors := s.doctors ++ [(oidString s.nextOid, p)],
                   nextOid := s.nextOid + 1 } := by
        simp [opStore, create_doctor, hv, afterExcept, Store.insertDoctor]
      rw [hs]
      refine ⟨Or.inl rfl, Or.inl rfl, Or.inr ⟨(oidString s.nextOid, p), rfl⟩, Or.inl rfl, ?_, ?_⟩
      · intro
        simp [totalDocs]
        omega
      · intro hf
        simp [opInserts, create_doctor, hv, isOkE] at hf
    · have hs : opStore s (.createDoctorOp p) = s := by
        simp [opStore, create_doctor, hv, afterExcept]
      rw [hs]
      refine ⟨Or.inl rfl, Or.inl rfl, Or.inl rfl, Or.inl rfl, ?_, fun _ => rfl⟩
      intro ht
      simp [opInserts, create_doctor, hv, isOkE] at ht
  | createAppointmentOp p =>
    by_cases hv : isValidObjectId p.doctor_id = true
    · by_cases hie : (s.appointments.filter fun e => matchesTriple p e.2).isEmpty = true
      · have hs : opStore s (.createAppointmentOp p) =
            { s with
              appointments := s.appointments ++
                [(oidString s.nextOid,
                  ⟨p.patient_name, p.patient_phone, p.doctor_id, p.date, p.time_slot, "pending"⟩)],
              nextOid := s.nextOid + 1 } := by
          simp [opStore, create_appointment, hv, hie, afterExcept, Store.insertAppointment]
        rw [hs]
        refine ⟨Or.inl rfl, Or.inl rfl, Or.inl rfl, Or.inr ⟨_, rfl⟩, ?_, ?_⟩
        · intro
          simp [totalDocs]
          omega
        · intro hf
          simp [opInserts, create_appointment, hv, hie, isOkE] at hf
      · have hie' : (s.appointments.filter fun e => matchesTriple p e.2).isEmpty = false :=
          Bool.eq_false_iff.mpr hie
        have hs : opStore s (.createAppointmentOp p) = s := by
          simp [opStore, create_appointment, hv, hie', afterExcept]
        rw [hs]
        refine ⟨Or.inl rfl, Or.inl rfl, Or.inl rfl, Or.inl rfl, ?_, fun _ => rfl⟩
        intro ht
        simp [opInserts, create_appointment, hv, hie', isOkE] at ht
    · have hs : opStore s (.createAppointmentOp p) = s := by
        simp [opStore, create_appointment, hv, afterExcept]
      rw [hs]
      refine ⟨Or.inl rfl, Or.inl rfl, Or.inl rfl, Or.inl rfl, ?_, fun _ => rfl⟩
      intro ht
      simp [opInserts, create_appointment, hv, isOkE] at ht

/-- Witness for C8: a successful concrete create grows the count by one, and
a concrete list request leaves the concrete store identical. -/
theorem store_is_insert_only_witness :
    totalDocs (opStore emptyStore (.createHospitalOp wHospital)) = totalDocs emptyStore + 1 ∧
    opStore wStore (.listClinicsOp none) = wStore :=
  ⟨(store_is_insert_only emptyStore (.createHospitalOp wHospital)).2.2.2.2.1 (by decide),
   (store_is_insert_only wStore (.listClinicsOp none)).2.2.2.2.2 (by decide)⟩

end MedicalBooking
